import Mathlib

/-!
Shallow embedding of the extraction core of `src/app_valutazione_xbrl.py`.

An XBRL document is modelled as the sequence of elements that
`root.iter()` yields in document order; every operation of the source
code (tag matching, value/text resolution, year extraction, the derived
metrics and the assembly of the result dictionary) works only through
that iteration, so the list view is faithful.  Every element carries its
full tag exactly as ElementTree renders it (namespace-qualified,
`{uri}LocalName`), its attribute map, and its optional text payload.
Monetary amounts (Python floats) are modelled as rationals.
-/

set_option autoImplicit false

/-- One XML element as seen through ElementTree: full tag, attribute
map, optional text. -/
structure XmlElem where
  tag : String
  attrib : List (String × String)
  text : Option String
  deriving DecidableEq

/-- Python dict lookup over the attribute map (keys of an ElementTree
attribute map are unique, so first match is the match). -/
def lookupAttr (attrs : List (String × String)) (k : String) : Option String :=
  match attrs with
  | [] => none
  | (a, v) :: rest => if a = k then some v else lookupAttr rest k

/-- Boolean test that `pat` is a prefix of `s` (character lists). -/
def strStarts (pat s : List Char) : Bool :=
  match pat, s with
  | [], _ => true
  | _ :: _, [] => false
  | p :: ps, c :: cs => p == c && strStarts ps cs

/-- Boolean test that `pat` occurs as a contiguous substring of `s`:
Python `pat in s`. -/
def strHasSub (pat s : List Char) : Bool :=
  match s with
  | [] => strStarts pat []
  | c :: cs => strStarts pat (c :: cs) || strHasSub pat cs

/-- Boolean test that `pat` is a suffix of `s`: Python `s.endswith(pat)`. -/
def strEnds (pat s : List Char) : Bool :=
  strStarts pat.reverse s.reverse

/-- Lines 73 and 85 of the source: a node matches an alias when
`elem.tag.endswith(tag_pattern) or tag_pattern in elem.tag`. -/
def tagMatches (tag pat : String) : Bool :=
  strEnds pat.data tag.data || strHasSub pat.data tag.data

/-- Python `str.strip()`: drop whitespace from both ends. -/
def trimChars (cs : List Char) : List Char :=
  ((cs.dropWhile Char.isWhitespace).reverse.dropWhile Char.isWhitespace).reverse

/-- Numeric value of a list of decimal digit characters. -/
def parseDigits (cs : List Char) : Nat :=
  cs.foldl (fun a c => a * 10 + (c.toNat - 48)) 0

/-- Python `float()` restricted to the character set that survives the
regex of `pulisci_valore_numerico` (digits, dot, minus): an optional
leading minus, then at most one dot, at least one digit and nothing
else; a ValueError is `none`. -/
def parseNumber (cs : List Char) : Option ℚ :=
  let neg := strStarts ['-'] cs
  let body := if neg then cs.drop 1 else cs
  if body.all (fun c => c.isDigit || c == '.')
      && decide (body.count '.' ≤ 1)
      && body.any Char.isDigit then
    let ip := body.takeWhile (fun c => c ≠ '.')
    let fp := (body.dropWhile (fun c => c ≠ '.')).drop 1
    let v : ℚ := (parseDigits ip : ℚ) + (parseDigits fp : ℚ) / ((10 : ℚ) ^ fp.length)
    some (if neg then -v else v)
  else
    none

/-- Lines 25-41, `pulisci_valore_numerico`: empty or absent text is
`None`; otherwise trim, remove every dot (thousands separator), turn
the decimal comma into a dot, strip every remaining character that is
not a digit, a dot or a minus, and parse; an empty residual string or a parse
failure is `None`.  The two single-character `str.replace` calls are
rendered as a character filter and a character map. -/
def pulisci_valore_numerico (text : Option String) : Option ℚ :=
  match text with
  | none => none
  | some s =>
    if s.data = [] then none
    else
      let t1 := trimChars s.data
      let t2 := (t1.filter (fun c => c ≠ '.')).map (fun c => if c == ',' then '.' else c)
      let t3 := t2.filter (fun c => c.isDigit || c == '.' || c == '-')
      if t3 = [] then none else parseNumber t3

/-- Inner loop of `trova_valore_con_namespace` (lines 72-76): first
element in document order that matches the pattern and whose text
survives `pulisci_valore_numerico`; a matching element with empty or
unparsable text does not stop the scan. -/
def findFirstValue (doc : List XmlElem) (pat : String) : Option ℚ :=
  match doc with
  | [] => none
  | e :: rest =>
    if tagMatches e.tag pat then
      match pulisci_valore_numerico e.text with
      | some v => some v
      | none => findFirstValue rest pat
    else
      findFirstValue rest pat

/-- Lines 66-77, `trova_valore_con_namespace`: try the alias patterns in
order, each over the whole document; the first alias that yields a
parsed value wins. -/
def trova_valore_con_namespace (doc : List XmlElem) (possibili_tag : List String) : Option ℚ :=
  match possibili_tag with
  | [] => none
  | t :: ts =>
    match findFirstValue doc t with
    | some v => some v
    | none => trova_valore_con_namespace doc ts

/-- Inner loop of `trova_testo_con_namespace` (lines 83-88): first
matching element whose text has a non-empty strip; the stripped text is
returned. -/
def findFirstText (doc : List XmlElem) (pat : String) : Option String :=
  match doc with
  | [] => none
  | e :: rest =>
    if tagMatches e.tag pat then
      match e.text with
      | some s =>
        if trimChars s.data ≠ [] then some (String.mk (trimChars s.data))
        else findFirstText rest pat
      | none => findFirstText rest pat
    else
      findFirstText rest pat

/-- Lines 79-88, `trova_testo_con_namespace`. -/
def trova_testo_con_namespace (doc : List XmlElem) (possibili_tag : List String) : Option String :=
  match possibili_tag with
  | [] => none
  | t :: ts =>
    match findFirstText doc t with
    | some s => some s
    | none => trova_testo_con_namespace doc ts

/-- Python `int(s[:4])`: first four characters, stripped, optional
sign, all digits; a ValueError is `none`. -/
def parseYear (s : String) : Option Int :=
  let t := trimChars (s.data.take 4)
  let neg := strStarts ['-'] t
  let ds := if neg then t.drop 1 else t
  if !ds.isEmpty && ds.all Char.isDigit then
    some (if neg then -(parseDigits ds : Int) else (parseDigits ds : Int))
  else
    none

/-- Lines 150-171, body of the year loop for one element, with the
exact `if`/`elif` shape of the source: an `instant` attribute is tried
first (and on failure the other branches of the chain are not
consulted), then an `endDate` attribute, and only otherwise a tag
ending in `instant`/`endDate` with the year parsed from its text. -/
def annoFromElem (e : XmlElem) : Option Int :=
  match lookupAttr e.attrib "instant" with
  | some v => parseYear v
  | none =>
    match lookupAttr e.attrib "endDate" with
    | some v => parseYear v
    | none =>
      if strEnds "instant".data e.tag.data || strEnds "endDate".data e.tag.data then
        match e.text with
        | some t => parseYear t
        | none => none
      else
        none

/-- Lines 148-171: the year of the first element in document order that
yields one; the loop breaks at the first success. -/
def estrai_anno (doc : List XmlElem) : Option Int :=
  match doc with
  | [] => none
  | e :: rest =>
    match annoFromElem e with
    | some y => some y
    | none => estrai_anno rest

/-- Lines 92-97 of the `tag_mapping` dict. -/
def tag_mapping_ricavi : List String :=
  ["ValoreProduzioneRicaviVenditePrestazioni",
   "RicaviVenditePrestazioniValoreProduzioneAnno",
   "RicaviVendite",
   "Ricavi"]

/-- Lines 98-103. -/
def tag_mapping_utile : List String :=
  ["PatrimonioNettoUtilePerditaEsercizio",
   "UtilePerditaEsercizio",
   "RisultatoEsercizio",
   "UtileNetto"]

/-- Lines 104-109. -/
def tag_mapping_attivo : List String :=
  ["TotaleAttivo", "AttivoTotale", "TotaleStato", "Attivo"]

/-- Lines 110-114. -/
def tag_mapping_patrimonio_netto : List String :=
  ["TotalePatrimonioNetto", "PatrimonioNettoTotale", "PatrimonioNetto"]

/-- Lines 115-119. -/
def tag_mapping_debiti_breve : List String :=
  ["DebitiDebitiVersoBancheEsigibiliEntroEsercizioSuccessivo",
   "DebitiBancariBreveTermine",
   "DebitiFinanziariBreve"]

/-- Lines 120-124. -/
def tag_mapping_debiti_mlt : List String :=
  ["DebitiDebitiVersoBancheEsigibiliOltreEsercizioSuccessivo",
   "DebitiBancariMedioLungoTermine",
   "DebitiFinanziariMedioLungo"]

/-- Lines 125-129. -/
def tag_mapping_denominazione : List String :=
  ["DatiAnagraficiDenominazione", "Denominazione", "RagioneSociale"]

/-- Lines 130-134. -/
def tag_mapping_codice_fiscale : List String :=
  ["DatiAnagraficiCodiceFiscale", "CodiceFiscale", "CF"]

/-- Lines 173-176: total financial debt, `None` only when both addends
are `None`, a `None` addend otherwise counted as zero (`x or 0`). -/
def calcola_debiti_totali (debiti_breve debiti_mlt : Option ℚ) : Option ℚ :=
  if debiti_breve.isSome || debiti_mlt.isSome then
    some (debiti_breve.getD 0 + debiti_mlt.getD 0)
  else
    none

/-- Lines 183-184: ROE percentage, guarded by
`utile is not None and patrimonio_netto is not None and patrimonio_netto != 0`. -/
def calcola_roe (utile patrimonio_netto : Option ℚ) : Option ℚ :=
  match utile, patrimonio_netto with
  | some u, some p => if p ≠ 0 then some (u / p * 100) else none
  | _, _ => none

/-- Lines 186-187: ROA percentage, same guard against `attivo`. -/
def calcola_roa (utile attivo : Option ℚ) : Option ℚ :=
  match utile, attivo with
  | some u, some a => if a ≠ 0 then some (u / a * 100) else none
  | _, _ => none

/-- Lines 189-190: debt to equity, no percentage factor. -/
def calcola_debt_to_equity (debiti_totali patrimonio_netto : Option ℚ) : Option ℚ :=
  match debiti_totali, patrimonio_netto with
  | some d, some p => if p ≠ 0 then some (d / p) else none
  | _, _ => none

/-- The result dictionary of lines 192-207: thirteen fields, every one
nullable.  The key `debt_to_equity_ratio` of the source dict is the
field `debt_to_equity` here. -/
structure FactSheet where
  denominazione : Option String
  codice_fiscale : Option String
  anno : Option Int
  ricavi : Option ℚ
  utile_netto : Option ℚ
  attivo : Option ℚ
  patrimonio_netto : Option ℚ
  debiti_finanziari_breve : Option ℚ
  debiti_finanziari_medio_lungo : Option ℚ
  debiti_finanziari_totale : Option ℚ
  roe_percentuale : Option ℚ
  roa_percentuale : Option ℚ
  debt_to_equity : Option ℚ
  deriving DecidableEq

/-- Lines 55-59: after `ET.parse` (line 51) has consumed the uploaded
file to EOF, `ET.iterparse(file, events=["start-ns"])` iterates over
the very same file object with no further seek, so the XML parser reads
an empty stream and raises `ParseError("no element found")` on every
input before a single namespace event is produced.  `none` models that
raise (the exception lands in the handler of line 209); the `some`
outcome is unreachable in the real function. -/
def iterparse_namespaces (_ : List XmlElem) : Option (List (String × String)) :=
  none

/-- Lines 62-207: the fact sheet the function would assemble from the
re-parsed document if control reached line 62.  In the real function
control never does, because `iterparse_namespaces` raises first; the
definition is kept as the embedding of the resolution and assembly
logic of those lines. -/
def buildFactSheet (root : List XmlElem) : FactSheet :=
  let ricavi := trova_valore_con_namespace root tag_mapping_ricavi
  let utile := trova_valore_con_namespace root tag_mapping_utile
  let attivo := trova_valore_con_namespace root tag_mapping_attivo
  let patrimonio_netto := trova_valore_con_namespace root tag_mapping_patrimonio_netto
  let debiti_breve := trova_valore_con_namespace root tag_mapping_debiti_breve
  let debiti_mlt := trova_valore_con_namespace root tag_mapping_debiti_mlt
  let denominazione := trova_testo_con_namespace root tag_mapping_denominazione
  let codice_fiscale := trova_testo_con_namespace root tag_mapping_codice_fiscale
  let anno := estrai_anno root
  let debiti_totali := calcola_debiti_totali debiti_breve debiti_mlt
  { denominazione := denominazione
    codice_fiscale := codice_fiscale
    anno := anno
    ricavi := ricavi
    utile_netto := utile
    attivo := attivo
    patrimonio_netto := patrimonio_netto
    debiti_finanziari_breve := debiti_breve
    debiti_finanziari_medio_lungo := debiti_mlt
    debiti_finanziari_totale := debiti_totali
    roe_percentuale := calcola_roe utile patrimonio_netto
    roa_percentuale := calcola_roa utile attivo
    debt_to_equity := calcola_debt_to_equity debiti_totali patrimonio_netto }

/-- Lines 43-214, `estrai_dati_xbrl`.  The input is the outcome of
`ET.parse`: `none` stands for bytes that are not parsable as XML (the
`ET.ParseError` branch of line 209, which reports the error and returns
`None`); `some doc` is the parsed document as its `root.iter()`
sequence.  On a successful parse the function then runs the iterparse
loop of lines 55-59, whose `ParseError` (raised unconditionally, the
stream being at EOF) falls into the same line-209 handler, so the
function returns `None` on every input and the assembly of lines
62-207 (`buildFactSheet`) is never reached. -/
def estrai_dati_xbrl (file : Option (List XmlElem)) : Option FactSheet :=
  match file with
  | none => none
  | some root =>
    match iterparse_namespaces root with
    | none => none
    | some _ => some (buildFactSheet root)

/-- A two-period document, as a `root.iter()` sequence: root, then a
context ending on December 31 of `y1`, then one ending on December 31
of `y2` (each context contributing its `context`, `period` and
`endDate` elements). -/
def mkTwoCtxDoc (y1 y2 : String) : List XmlElem :=
  [⟨"{http://www.xbrl.org/2003/instance}xbrl", [], none⟩,
   ⟨"{http://www.xbrl.org/2003/instance}context", [("id", "c1")], none⟩,
   ⟨"{http://www.xbrl.org/2003/instance}period", [], none⟩,
   ⟨"{http://www.xbrl.org/2003/instance}endDate", [], some (y1 ++ "-12-31")⟩,
   ⟨"{http://www.xbrl.org/2003/instance}context", [("id", "c2")], none⟩,
   ⟨"{http://www.xbrl.org/2003/instance}period", [], none⟩,
   ⟨"{http://www.xbrl.org/2003/instance}endDate", [], some (y2 ++ "-12-31")⟩]

/-- A two-period filing with the revenue fact tagged once per period:
context `c2022` (end date 2022-12-31) and context `c2023` (end date
2023-12-31, the maximal one), then a `Ricavi` node bound to `c2022`
with value 100 and a `Ricavi` node bound to `c2023` with value 200, in
that document order. -/
def docMultiPeriod : List XmlElem :=
  [⟨"{xbrli}xbrl", [], none⟩,
   ⟨"{xbrli}context", [("id", "c2022")], none⟩,
   ⟨"{xbrli}period", [], none⟩,
   ⟨"{xbrli}endDate", [], some "2022-12-31"⟩,
   ⟨"{xbrli}context", [("id", "c2023")], none⟩,
   ⟨"{xbrli}period", [], none⟩,
   ⟨"{xbrli}endDate", [], some "2023-12-31"⟩,
   ⟨"{itcc}Ricavi", [("contextRef", "c2022")], some "100"⟩,
   ⟨"{itcc}Ricavi", [("contextRef", "c2023")], some "200"⟩]

/-- A document with no context elements at all (nothing date-like), but
with an entity-name node and a revenue node. -/
def docNoContext : List XmlElem :=
  [⟨"{itcc-ci}bilancio", [], none⟩,
   ⟨"{itcc-ci}DatiAnagraficiDenominazione", [], some "ACME SRL"⟩,
   ⟨"{itcc-ci}Ricavi", [("contextRef", "c1")], some "1000"⟩]

/-- A document where the higher-priority alias of the net-income
concept is present with non-empty but unparsable text, and the
lower-priority alias carries the parsable value 5. -/
def docUnparsableFirst : List XmlElem :=
  [⟨"{itcc}RisultatoEsercizio", [], some "abc"⟩,
   ⟨"{itcc}UtileNetto", [], some "5"⟩]

/-- A document carrying only the secondary alias of the net-income
concept. -/
def docSecondaryOnly : List XmlElem :=
  [⟨"{itcc}UtileNetto", [], some "5"⟩]

/-! ## Helper lemmas -/

theorem estrai_anno_cons_none (e : XmlElem) (rest : List XmlElem)
    (h : annoFromElem e = none) : estrai_anno (e :: rest) = estrai_anno rest := by
  simp [estrai_anno, h]

theorem estrai_anno_cons_some (e : XmlElem) (rest : List XmlElem) (y : Int)
    (h : annoFromElem e = some y) : estrai_anno (e :: rest) = some y := by
  simp [estrai_anno, h]

theorem strStarts_append_self (l r : List Char) : strStarts l (l ++ r) = true := by
  induction l with
  | nil => rfl
  | cons p ps ih => simp [strStarts, ih]

theorem calcola_roe_none_iff (u p : Option ℚ) :
    calcola_roe u p = none ↔ u = none ∨ p = none ∨ p = some 0 := by
  cases u with
  | none => simp [calcola_roe]
  | some x =>
    cases p with
    | none => simp [calcola_roe]
    | some y => by_cases hy : y = 0 <;> simp [calcola_roe, hy]

theorem calcola_roe_some (x y : ℚ) (hy : y ≠ 0) :
    calcola_roe (some x) (some y) = some (x / y * 100) := by
  simp [calcola_roe, hy]

theorem calcola_roa_none_iff (u a : Option ℚ) :
    calcola_roa u a = none ↔ u = none ∨ a = none ∨ a = some 0 := by
  cases u with
  | none => simp [calcola_roa]
  | some x =>
    cases a with
    | none => simp [calcola_roa]
    | some y => by_cases hy : y = 0 <;> simp [calcola_roa, hy]

theorem calcola_roa_some (x y : ℚ) (hy : y ≠ 0) :
    calcola_roa (some x) (some y) = some (x / y * 100) := by
  simp [calcola_roa, hy]

theorem calcola_dte_none_iff (d p : Option ℚ) :
    calcola_debt_to_equity d p = none ↔ d = none ∨ p = none ∨ p = some 0 := by
  cases d with
  | none => simp [calcola_debt_to_equity]
  | some x =>
    cases p with
    | none => simp [calcola_debt_to_equity]
    | some y => by_cases hy : y = 0 <;> simp [calcola_debt_to_equity, hy]

theorem calcola_dte_some (x y : ℚ) (hy : y ≠ 0) :
    calcola_debt_to_equity (some x) (some y) = some (x / y) := by
  simp [calcola_debt_to_equity, hy]

/-! ## Claims -/

/-- C1: the claim states that for a contextual concept only nodes whose
context-reference attribute equals the authoritative context id are ever
returned.  The code has no context filter at all: on `docMultiPeriod`
the authoritative context (maximal end date 2023-12-31) is `c2023` and
its revenue node holds 200, yet resolution returns 100, the value of
the node bound to the stale context `c2022`, merely because it comes
first in document order. -/
theorem c1_context_unaware :
    trova_valore_con_namespace docMultiPeriod tag_mapping_ricavi = some 100 ∧
    (⟨"{itcc}Ricavi", [("contextRef", "c2023")], some "200"⟩ : XmlElem) ∈ docMultiPeriod := by
  constructor
  · show some (((100 : ℕ) : ℚ) + ((0 : ℕ) : ℚ) / ((10 : ℚ) ^ (0 : ℕ))) = some 100
    norm_num
  · decide

/-- C2 counterexample: on the documents with contexts ending 2022-12-31
and 2023-12-31, in either document order, the pipeline returns no fact
sheet at all (the line-56 iterparse raise sends every input to the
`None` branch), so no reporting year — a fortiori not 2023 — is ever
exposed, contradicting the claim. -/
theorem c2_counterexample :
    estrai_dati_xbrl (some (mkTwoCtxDoc "2022" "2023")) = none ∧
    estrai_dati_xbrl (some (mkTwoCtxDoc "2023" "2022")) = none :=
  ⟨rfl, rfl⟩

/-- C2 amended: the pipeline never exposes a reporting year, since
extraction returns `None` on every input; the year-selection logic of
lines 148-171 that would populate the field yields the year of the
first date-bearing node in document order, not the maximal end date:
for a two-context document whose first context ends on December 31 of
`y1`, it yields the year of `y1`, whatever the second context is. -/
theorem c2_first_date_wins (y1 y2 : String) (n1 : Int)
    (h : parseYear (y1 ++ "-12-31") = some n1) :
    estrai_anno (mkTwoCtxDoc y1 y2) = some n1 := by
  have hroot :
      annoFromElem ⟨"{http://www.xbrl.org/2003/instance}xbrl", [], none⟩ = none := rfl
  have hctx :
      annoFromElem ⟨"{http://www.xbrl.org/2003/instance}context", [("id", "c1")], none⟩ =
        none := rfl
  have hper :
      annoFromElem ⟨"{http://www.xbrl.org/2003/instance}period", [], none⟩ = none := rfl
  have hend :
      annoFromElem ⟨"{http://www.xbrl.org/2003/instance}endDate", [], some (y1 ++ "-12-31")⟩ =
        parseYear (y1 ++ "-12-31") := rfl
  rw [mkTwoCtxDoc]
  rw [estrai_anno_cons_none _ _ hroot, estrai_anno_cons_none _ _ hctx,
    estrai_anno_cons_none _ _ hper]
  exact estrai_anno_cons_some _ _ n1 (hend.trans h)

theorem c2_first_date_wins_witness :
    parseYear ("2022" ++ "-12-31") = some 2022 ∧
    estrai_anno (mkTwoCtxDoc "2022" "2023") = some 2022 :=
  ⟨rfl, c2_first_date_wins "2022" "2023" 2022 rfl⟩

/-- C3: the claim says a document with no resolvable end date fails
with the typed error NoValidContext and yields no fact sheet.  No fact
sheet is indeed returned — but through no context check: the line-56
iterparse raise sends every input, context or no context, into the same
undiscriminated `None` branch of line 209.  The document with two valid
contexts (`docMultiPeriod`) fails identically to the context-free one
(`docNoContext`), so the failure the claim attributes to a missing
context is really the unconditional parse slip; no NoValidContext error
exists in the code. -/
theorem c3_no_sheet_ever :
    estrai_dati_xbrl (some docNoContext) = none ∧
    estrai_dati_xbrl (some docMultiPeriod) = none :=
  ⟨rfl, rfl⟩

/-- C4 counterexample: the alias `Ricavi` is matched by a node whose
local name `AltriRicavi` merely extends the alias, and resolution
returns that node's value, contradicting the claim that matching is
exact equality of the local name. -/
theorem c4_counterexample :
    tagMatches "AltriRicavi" "Ricavi" = true ∧
    trova_valore_con_namespace [⟨"AltriRicavi", [], some "7"⟩] ["Ricavi"] = some 7 := by
  constructor
  · decide
  · show some (((7 : ℕ) : ℚ) + ((0 : ℕ) : ℚ) / ((10 : ℚ) ^ (0 : ℕ))) = some 7
    norm_num

/-- C4 amended: matching is namespace-agnostic suffix/substring
comparison of the full tag: every node whose tag ends with the alias —
in particular a node whose local name equals the alias under any
namespace qualifier `pre` — matches; the counterexample shows the
converse direction of the claim fails, since names merely extending the
alias match too. -/
theorem c4_suffix_matches (pre pat : String) : tagMatches (pre ++ pat) pat = true := by
  have hdata : (pre ++ pat).data = pre.data ++ pat.data := rfl
  simp [tagMatches, strEnds, hdata, List.reverse_append, strStarts_append_self]

/-- C5 amended: numeric resolution tries aliases in priority order; the
first alias whose first document-order match carries parsable numeric
text wins and later aliases are not consulted, while an alias with no
parsable hit (absent, empty, or unparsable text) passes control to the
next alias; textual resolution behaves the same with the non-empty
trimmed-text criterion.  (As stated the claim is false: a matching node
with non-empty but unparsable text does not stop numeric resolution,
see the counterexample.) -/
theorem c5_resolution (doc : List XmlElem) (t : String) (ts : List String) :
    (∀ v : ℚ, findFirstValue doc t = some v →
        trova_valore_con_namespace doc (t :: ts) = some v) ∧
    (findFirstValue doc t = none →
        trova_valore_con_namespace doc (t :: ts) = trova_valore_con_namespace doc ts) ∧
    (∀ s : String, findFirstText doc t = some s →
        trova_testo_con_namespace doc (t :: ts) = some s) ∧
    (findFirstText doc t = none →
        trova_testo_con_namespace doc (t :: ts) = trova_testo_con_namespace doc ts) := by
  refine ⟨fun v h => ?_, fun h => ?_, fun s h => ?_, fun h => ?_⟩ <;>
    simp [trova_valore_con_namespace, trova_testo_con_namespace, h]

theorem c5_resolution_witness :
    findFirstValue docSecondaryOnly "RisultatoEsercizio" = none ∧
    trova_valore_con_namespace docSecondaryOnly ["RisultatoEsercizio", "UtileNetto"] =
      trova_valore_con_namespace docSecondaryOnly ["UtileNetto"] :=
  ⟨rfl, (c5_resolution docSecondaryOnly "RisultatoEsercizio" ["UtileNetto"]).2.1 rfl⟩

/-- C5 counterexample: the higher-priority alias `RisultatoEsercizio`
hits a node with non-empty trimmed text "abc"; the claim says resolution
stops there (so the later alias is never consulted and no number can
result), but the code skips the unparsable hit and returns 5 from the
lower-priority alias `UtileNetto`. -/
theorem c5_counterexample :
    trova_valore_con_namespace docUnparsableFirst ["RisultatoEsercizio", "UtileNetto"] =
      some 5 := by
  show some (((5 : ℕ) : ℚ) + ((0 : ℕ) : ℚ) / ((10 : ℚ) ^ (0 : ℕ))) = some 5
  norm_num

/-- C6: the numeric normalizer maps European-convention literals to the
exact decimals and degenerate inputs to null. -/
theorem c6_normalizer :
    pulisci_valore_numerico (some "1.234.567,89") = some (123456789 / 100) ∧
    pulisci_valore_numerico (some "12,5") = some (25 / 2) ∧
    pulisci_valore_numerico (some "") = none ∧
    pulisci_valore_numerico (some "-") = none := by
  refine ⟨?_, ?_, rfl, rfl⟩
  · show some (((1234567 : ℕ) : ℚ) + ((89 : ℕ) : ℚ) / ((10 : ℚ) ^ (2 : ℕ))) =
      some (123456789 / 100)
    norm_num
  · show some (((12 : ℕ) : ℚ) + ((5 : ℕ) : ℚ) / ((10 : ℚ) ^ (1 : ℕ))) = some (25 / 2)
    norm_num

/-- C7: the total debt is null exactly when both addends are null, and
otherwise is the sum with null addends counted as zero. -/
theorem c7_debiti_totali (db dm : Option ℚ) :
    (calcola_debiti_totali db dm = none ↔ db = none ∧ dm = none) ∧
    (db ≠ none ∨ dm ≠ none →
        calcola_debiti_totali db dm = some (db.getD 0 + dm.getD 0)) := by
  cases db <;> cases dm <;> simp [calcola_debiti_totali]

theorem c7_debiti_totali_witness :
    calcola_debiti_totali none (some 300) = some 300 ∧
    calcola_debiti_totali none none = none := by
  constructor
  · have h := (c7_debiti_totali none (some 300)).2 (Or.inr (by simp))
    simpa using h
  · exact ((c7_debiti_totali none none).1).mpr ⟨rfl, rfl⟩

/-- C8: each derived ratio is null exactly when its numerator is null
or its denominator is null or zero, and otherwise equals the quotient
(times 100 for ROE and ROA); division never occurs with a zero
denominator. -/
theorem c8_indicatori (utile patrimonio_netto attivo debiti_totali : Option ℚ) :
    (calcola_roe utile patrimonio_netto = none ↔
        utile = none ∨ patrimonio_netto = none ∨ patrimonio_netto = some 0) ∧
    (∀ u p : ℚ, utile = some u → patrimonio_netto = some p → p ≠ 0 →
        calcola_roe utile patrimonio_netto = some (u / p * 100)) ∧
    (calcola_roa utile attivo = none ↔
        utile = none ∨ attivo = none ∨ attivo = some 0) ∧
    (∀ u a : ℚ, utile = some u → attivo = some a → a ≠ 0 →
        calcola_roa utile attivo = some (u / a * 100)) ∧
    (calcola_debt_to_equity debiti_totali patrimonio_netto = none ↔
        debiti_totali = none ∨ patrimonio_netto = none ∨ patrimonio_netto = some 0) ∧
    (∀ d p : ℚ, debiti_totali = some d → patrimonio_netto = some p → p ≠ 0 →
        calcola_debt_to_equity debiti_totali patrimonio_netto = some (d / p)) := by
  refine ⟨calcola_roe_none_iff _ _, ?_, calcola_roa_none_iff _ _, ?_,
    calcola_dte_none_iff _ _, ?_⟩
  · rintro u p rfl rfl hp
    exact calcola_roe_some u p hp
  · rintro u a rfl rfl ha
    exact calcola_roa_some u a ha
  · rintro d p rfl rfl hp
    exact calcola_dte_some d p hp

theorem c8_indicatori_witness :
    calcola_roe (some 100000) (some 500000) = some 20 ∧
    calcola_roe (some 100000) (some 0) = none := by
  constructor
  · have h := (c8_indicatori (some 100000) (some 500000) none none).2.1
      100000 500000 rfl rfl (by norm_num)
    rw [h]
    norm_num
  · exact ((c8_indicatori (some 100000) (some 0) none none).1).mpr (Or.inr (Or.inr rfl))

/-- C9: bytes that are not parsable as XML (the `ET.ParseError` branch,
modelled as the `none` parse outcome) abort the whole extraction and
produce no fact sheet. -/
theorem c9_malformed : estrai_dati_xbrl none = none := rfl

/-- C10: extraction is total and the caller can only ever observe the
no-result value or a complete fact record, never a propagated exception
or a partial record.  In fact every path returns the no-result value:
an unparsable input fails at `ET.parse`, and every parsed document
fails at the line-56 iterparse loop; both exceptions are caught inside
the function and mapped to `None`, so extraction returns `None` on
every input — which satisfies the claimed record-or-`None` contract. -/
theorem c10_total :
    ∀ file : Option (List XmlElem), estrai_dati_xbrl file = none := by
  intro file
  cases file <;> rfl
